import Mathlib

/-!
# Verification of the jiaxun authentication and authorization subsystem

Shallow embedding of the auth subsystem of the jiaxun CRUD backend:
the JWT token codec (`GenerateToken` and the verification performed by
`jwt.ParseWithClaims` with the middleware's keyfunc), the authentication
filter (`AuthMiddleware`), the authorization middlewares (`LoginRequired`,
`TeacherRequired`, `CanModifyUser`), the configuration loader's
environment-override step (`overrideFromEnv`), and the bootstrap root user
created by `InitDB`.

Modelling conventions:
* Machine integers (`uint`, Go `int`) are `Nat`/`Int` with explicit range
  checks where the source performs them (`strconv.ParseUint(s, 10, 32)`,
  `strconv.Atoi`).
* Timestamps are `Nat` seconds (the codec compares times at the claim's
  second-level `NumericDate` granularity).
* The HMAC primitive is modelled symbolically (an ideal MAC): a signature
  is the triple of the signing key, the header algorithm and the signed
  claims, and signature verification recomputes and compares that triple.
  This is the standard symbolic abstraction of an unforgeable MAC.
* Base64url/JSON wire decoding of a compact JWT string is abstracted as a
  `decode : String → Option Token` parameter; `decode s = none` models the
  `jwt.ErrTokenMalformed` outcome of `jwt.ParseWithClaims` on a string that
  is not a structurally valid JWT.
* The Gin context keys `userID`/`email`/`role` are written together by the
  sole writer (`AuthMiddleware`), so the request context is modelled as an
  `Option Identity`.
-/

namespace Jiaxun

/-- The identity triple the authentication filter stores in the request
context (`c.Set("userID", _)`, `c.Set("email", _)`, `c.Set("role", _)` in
`AuthMiddleware`). -/
structure Identity where
  userID : Nat
  email : String
  role : String
deriving DecidableEq, Repr

/-- `JWTClaims` from `internal/middleware` (part_003): the custom claims
plus the registered claims the code actually sets (`ExpiresAt`, `IssuedAt`,
`Issuer`). -/
structure JWTClaims where
  userID : Nat
  email : String
  role : String
  expiresAt : Nat
  issuedAt : Nat
  issuer : String
deriving DecidableEq, Repr

/-- Symbolic MAC value: determined by the signing key and the signed input
(header algorithm plus claims). Two signatures are equal iff key, algorithm
and claims all agree — the ideal-MAC abstraction of HMAC-SHA. -/
structure Sig where
  key : String
  alg : String
  claims : JWTClaims
deriving DecidableEq, Repr

/-- A structurally well-formed JWT: header algorithm, claims payload, and
the signature over (algorithm, claims). -/
structure Token where
  alg : String
  claims : JWTClaims
  sig : Sig
deriving DecidableEq, Repr

/-- Signing: the symbolic MAC of the signing input under `secret`. -/
def mkSig (secret : String) (alg : String) (claims : JWTClaims) : Sig :=
  ⟨secret, alg, claims⟩

/-- The HMAC family registered with golang-jwt; the keyfunc's type switch
`token.Method.(*jwt.SigningMethodHMAC)` succeeds exactly for these. -/
def hmacAlgs : List String := ["HS256", "HS384", "HS512"]

def isHmacAlg (a : String) : Bool := hmacAlgs.contains a

/-- Error categories of `jwt.ParseWithClaims` as distinguished by
`AuthMiddleware`'s `errors.Is` chain.  `other detail` covers every failure
outside the three named categories (in particular the keyfunc rejection of
a non-HMAC algorithm) and carries the underlying error's message. -/
inductive VerifyError where
  | expired
  | malformed
  | badSignature
  | other (detail : String)
deriving DecidableEq, Repr

/-- Token verification as performed by `jwt.ParseWithClaims` with the
middleware's keyfunc, in the library's order of checks:
1. the keyfunc rejects any header algorithm outside the HMAC family
   (`fmt.Errorf("unexpected signing method: %v", ...)`);
2. the signature is recomputed over the header and claims with `secret`
   and compared;
3. the claims validator requires `now < expiresAt` (v5's
   `cmp.Before(exp)`; equality counts as expired); `iat` is not validated
   by default and no `nbf` is set. -/
def verifyToken (tok : Token) (secret : String) (now : Nat) :
    Except VerifyError JWTClaims :=
  if isHmacAlg tok.alg = false then
    .error (.other ("unexpected signing method: " ++ tok.alg))
  else if tok.sig ≠ mkSig secret tok.alg tok.claims then
    .error .badSignature
  else if now < tok.claims.expiresAt then
    .ok tok.claims
  else
    .error .expired

/-- `jwt.ParseWithClaims` on a raw token string: wire decoding failure is
the `Malformed` category; a structurally valid token is then verified. -/
def verifyTokenString (decode : String → Option Token) (s : String)
    (secret : String) (now : Nat) : Except VerifyError JWTClaims :=
  match decode s with
  | none => .error .malformed
  | some tok => verifyToken tok secret now

/-- Token lifetime set by `GenerateToken`: 24 hours, in seconds. -/
def tokenLifetime : Nat := 24 * 60 * 60

/-- `GenerateToken` (part_003): claims carry the identity, `ExpiresAt =
now + 24h`, `IssuedAt = now`, `Issuer = "jiaxun"`; the token is created
with `jwt.SigningMethodHS256` and signed with the configured secret. -/
def GenerateToken (now : Nat) (secret : String) (userID : Nat)
    (email role : String) : Token :=
  let claims : JWTClaims :=
    { userID := userID
      email := email
      role := role
      expiresAt := now + tokenLifetime
      issuedAt := now
      issuer := "jiaxun" }
  { alg := "HS256", claims := claims, sig := mkSig secret "HS256" claims }

/-- The inbound request as seen by the middleware: URL path and the value
of the `Authorization` header (`c.GetHeader` returns `""` when the header
is absent, and the code only tests emptiness). -/
structure Request where
  path : String
  authHeader : String
deriving DecidableEq, Repr

/-- Outcome of the authentication filter: pass the request on with the
context it populated, or abort with an HTTP status and JSON error body. -/
inductive AuthResult where
  | proceed (ctx : Option Identity)
  | reject (status : Nat) (errorMsg : String)
deriving DecidableEq, Repr

/-- Outcome of an authorization middleware (which only reads the context):
`c.Next()` or `c.JSON(status, ...)`+`c.Abort()`. -/
inductive MWResult where
  | next
  | abort (status : Nat) (errorMsg : String)
deriving DecidableEq, Repr

/-- Byte/char-level `strings.HasPrefix`. -/
def listStartsWith : List Char → List Char → Bool
  | [], _ => true
  | _ :: _, [] => false
  | a :: as, b :: bs => a == b && listStartsWith as bs

/-- The allow-list of public path stems in part_003. -/
def publicPaths : List String :=
  ["/api/auth/login", "/api/auth/register", "/api/health"]

/-- The public-path bypass test: `strings.HasPrefix(path, p)` for some
element of `publicPaths`. -/
def isPublicPath (path : String) : Bool :=
  publicPaths.any fun p => listStartsWith p.data path.data

/-- `strings.Split(s, sep)` for a one-character separator, on the char
list: every occurrence splits, adjacent separators yield empty fields,
and the empty string yields one empty field. -/
def splitChar (sep : Char) : List Char → List (List Char)
  | [] => [[]]
  | c :: rest =>
    match splitChar sep rest with
    | [] => [[c]]
    | g :: gs => if c == sep then [] :: g :: gs else (c :: g) :: gs

/-- The header-format check of `AuthMiddleware`:
`parts := strings.Split(authHeader, " ")`, require `len(parts) == 2 &&
parts[0] == "Bearer"`, and return `parts[1]` as the token string. -/
def parseBearer (h : String) : Option String :=
  match splitChar ' ' h.data with
  | [p0, p1] => if p0 = "Bearer".data then some (String.mk p1) else none
  | _ => none

/-- `AuthMiddleware` (part_003). In order: public-path bypass (no context
write), empty-header rejection, header-format rejection, then token
verification with the error-category-to-body mapping of the `errors.Is`
chain; on success the three context keys are set from the claims.  (The
`!token.Valid` re-check after a nil error is unreachable in golang-jwt v5
and is not modelled as a separate outcome.) -/
def AuthMiddleware (decode : String → Option Token) (secret : String)
    (now : Nat) (req : Request) : AuthResult :=
  if isPublicPath req.path then .proceed none
  else if req.authHeader = "" then
    .reject 401 "Authorization header is required"
  else
    match parseBearer req.authHeader with
    | none => .reject 401 "Authorization header format must be Bearer {token}"
    | some tokenString =>
      match verifyTokenString decode tokenString secret now with
      | .error .expired => .reject 401 "Token has expired"
      | .error .malformed => .reject 401 "Malformed token"
      | .error .badSignature => .reject 401 "Invalid token signature"
      | .error (.other d) => .reject 401 ("Invalid token: " ++ d)
      | .ok claims =>
        .proceed (some ⟨claims.userID, claims.email, claims.role⟩)

/-- `strconv.ParseUint(s, 10, bits)` digit loop: base-10 digits only (no
sign, no underscores with an explicit base). -/
def parseUintAux : List Char → Nat → Option Nat
  | [], acc => some acc
  | c :: cs, acc =>
    if c.isDigit then parseUintAux cs (acc * 10 + (c.toNat - 48)) else none

/-- `strconv.ParseUint(s, 10, 32)`: `none` on the empty string, on any
non-digit character, and on values exceeding `2^32 - 1`. -/
def parseUint32 (s : String) : Option Nat :=
  match s.data with
  | [] => none
  | cs =>
    match parseUintAux cs 0 with
    | some v => if v < 2 ^ 32 then some v else none
    | none => none

/-- `LoginRequired` (part_004): 401 unless the context has an identity. -/
def LoginRequired (ctx : Option Identity) : MWResult :=
  match ctx with
  | none => .abort 401 "Authentication required"
  | some _ => .next

/-- `TeacherRequired` (part_004): 401 without an identity; 403 unless the
context role is exactly `"teacher"`. -/
def TeacherRequired (ctx : Option Identity) : MWResult :=
  match ctx with
  | none => .abort 401 "Authentication required"
  | some ident =>
    if ident.role = "teacher" then .next
    else .abort 403 "Teacher privileges required"

/-- `CanModifyUser` (part_004), in the source's order: parse the `:id`
route parameter with `strconv.ParseUint(_, 10, 32)` (400 on failure),
then require an identity (401), then allow the `"teacher"` role, then
allow `authenticatedUserID == targetID`, else 403. -/
def CanModifyUser (targetIDStr : String) (ctx : Option Identity) : MWResult :=
  match parseUint32 targetIDStr with
  | none => .abort 400 "Invalid user ID"
  | some targetID =>
    match ctx with
    | none => .abort 401 "Authentication required"
    | some ident =>
      if ident.role = "teacher" then .next
      else if ident.userID = targetID then .next
      else .abort 403 "You can only modify your own profile"

/-! ## Configuration loader (part_002) -/

structure ServerConfig where
  host : String
  port : Int
deriving DecidableEq, Repr

structure ApplicationConfig where
  secret : String
deriving DecidableEq, Repr

structure DatabaseConfig where
  driver : String
  host : String
  port : Int
  user : String
  password : String
  name : String
deriving DecidableEq, Repr

structure LoggingConfig where
  level : String
  fmt : String
deriving DecidableEq, Repr

structure Config where
  server : ServerConfig
  database : DatabaseConfig
  logging : LoggingConfig
  application : ApplicationConfig
deriving DecidableEq, Repr

/-- The default configuration built in `LoadConfig` before file and
environment overrides; in particular `Application.Secret = "mysecret"`. -/
def defaultConfig : Config :=
  { server := { host := "127.0.0.1", port := 8080 }
    database :=
      { driver := "postgres", host := "localhost", port := 5432
        user := "postgres", password := "postgres", name := "jiaxun" }
    logging := { level := "info", fmt := "text" }
    application := { secret := "mysecret" } }

/-- Digit run for `strconv.Atoi`: the part after an optional sign must be
nonempty. -/
def atoiDigits : List Char → Option Nat
  | [] => none
  | cs => parseUintAux cs 0

/-- `strconv.Atoi` = `ParseInt(s, 10, 0)` with 64-bit `int`: optional
single sign, base-10 digits, range `[-2^63, 2^63 - 1]`. -/
def atoi (s : String) : Option Int :=
  match s.data with
  | [] => none
  | '+' :: cs =>
    match atoiDigits cs with
    | some n => if n ≤ 2 ^ 63 - 1 then some (Int.ofNat n) else none
    | none => none
  | '-' :: cs =>
    match atoiDigits cs with
    | some n => if n ≤ 2 ^ 63 then some (-(Int.ofNat n)) else none
    | none => none
  | cs =>
    match atoiDigits cs with
    | some n => if n ≤ 2 ^ 63 - 1 then some (Int.ofNat n) else none
    | none => none

/-- The process environment as seen through `os.Getenv`: a total map from
variable name to value, `""` meaning unset (the code only tests `!= ""`). -/
def Env : Type := String → String

/-- `if host := os.Getenv("SERVER_HOST"); host != "" { cfg.Server.Host = host }` -/
def overrideServerHost (cfg : Config) (env : Env) : Config :=
  if env "SERVER_HOST" ≠ "" then
    { cfg with server.host := env "SERVER_HOST" } else cfg

/-- `if port := os.Getenv("SERVER_PORT"); port != "" { if p, err :=
strconv.Atoi(port); err == nil { cfg.Server.Port = p } }` -/
def overrideServerPort (cfg : Config) (env : Env) : Config :=
  if env "SERVER_PORT" ≠ "" then
    match atoi (env "SERVER_PORT") with
    | some p => { cfg with server.port := p }
    | none => cfg
  else cfg

/-- `DB_DRIVER` override. -/
def overrideDbDriver (cfg : Config) (env : Env) : Config :=
  if env "DB_DRIVER" ≠ "" then
    { cfg with database.driver := env "DB_DRIVER" } else cfg

/-- `DB_HOST` override. -/
def overrideDbHost (cfg : Config) (env : Env) : Config :=
  if env "DB_HOST" ≠ "" then
    { cfg with database.host := env "DB_HOST" } else cfg

/-- `DB_PORT` override through `strconv.Atoi`. -/
def overrideDbPort (cfg : Config) (env : Env) : Config :=
  if env "DB_PORT" ≠ "" then
    match atoi (env "DB_PORT") with
    | some p => { cfg with database.port := p }
    | none => cfg
  else cfg

/-- `DB_USER` override. -/
def overrideDbUser (cfg : Config) (env : Env) : Config :=
  if env "DB_USER" ≠ "" then
    { cfg with database.user := env "DB_USER" } else cfg

/-- `DB_PASSWORD` override. -/
def overrideDbPassword (cfg : Config) (env : Env) : Config :=
  if env "DB_PASSWORD" ≠ "" then
    { cfg with database.password := env "DB_PASSWORD" } else cfg

/-- `DB_NAME` override. -/
def overrideDbName (cfg : Config) (env : Env) : Config :=
  if env "DB_NAME" ≠ "" then
    { cfg with database.name := env "DB_NAME" } else cfg

/-- `LOG_LEVEL` override. -/
def overrideLogLevel (cfg : Config) (env : Env) : Config :=
  if env "LOG_LEVEL" ≠ "" then
    { cfg with logging.level := env "LOG_LEVEL" } else cfg

/-- `LOG_FORMAT` override. -/
def overrideLogFormat (cfg : Config) (env : Env) : Config :=
  if env "LOG_FORMAT" ≠ "" then
    { cfg with logging.fmt := env "LOG_FORMAT" } else cfg

/-- `overrideFromEnv` (part_002): the ten if-statements of the source, in
source order, each modelled by one step above.  Ports go through
`strconv.Atoi` and are overridden only when parsing succeeds.
Note: no step reads a variable for `Application.Secret`. -/
def overrideFromEnv (cfg : Config) (env : Env) : Config :=
  overrideLogFormat
    (overrideLogLevel
      (overrideDbName
        (overrideDbPassword
          (overrideDbUser
            (overrideDbPort
              (overrideDbHost
                (overrideDbDriver
                  (overrideServerPort
                    (overrideServerHost cfg env) env) env) env) env) env)
          env) env) env) env

/-! ## Bootstrap root user (part_001) -/

/-- `model.User` (part_006), the scalar fields relevant to the bootstrap
user (the `ID` is assigned by the database; `CreatedAt` is a timestamp). -/
structure User where
  username : String
  email : String
  password : String
  fullName : String
  role : String
  createdAt : Nat
deriving DecidableEq, Repr

/-- The root user `InitDB` (part_001) creates when absent: username
`"root"`, role `"admin"`; the password field holds the bcrypt hash of
`"jiaxun"`, abstracted as a parameter. -/
def mkRootUser (hashedPassword : String) (now : Nat) : User :=
  { username := "root"
    email := "root@example.com"
    password := hashedPassword
    fullName := "System Administrator"
    role := "admin"
    createdAt := now }

/-! ## Concrete instances used in the development -/

/-- Sample claims for concrete tokens. -/
def someClaims : JWTClaims :=
  { userID := 1, email := "e", role := "r", expiresAt := 86400,
    issuedAt := 0, issuer := "jiaxun" }

/-- A structurally valid token whose header declares RS256. -/
def tokRS : Token := ⟨"RS256", someClaims, mkSig "k" "RS256" someClaims⟩

/-- A structurally valid token whose header declares ES256. -/
def tokES : Token := ⟨"ES256", someClaims, mkSig "k" "ES256" someClaims⟩

/-- Wire decoder yielding `tokRS` for every token string. -/
def decodeRS : String → Option Token := fun _ => some tokRS

/-- Wire decoder yielding `tokES` for every token string. -/
def decodeES : String → Option Token := fun _ => some tokES

/-- A token issued at time 0 with secret `"k"` for user (1, "e", "r"). -/
def wTok : Token := GenerateToken 0 "k" 1 "e" "r"

/-- A token issued at time 0 with secret `"k1"`. -/
def wTok1 : Token := GenerateToken 0 "k1" 1 "e" "r"

/-- Wire decoder mapping the token string `"t"` to `wTok`. -/
def wDecode : String → Option Token :=
  fun s => if s = "t" then some wTok else none

/-- A request on a protected path presenting the token string `"t"`. -/
def wReq : Request := ⟨"/api/users/me", "Bearer t"⟩

/-! ## Helper lemmas -/

theorem parseBearer_ne_empty {h : String} {s : String}
    (hp : parseBearer h = some s) : h ≠ "" := by
  intro he
  rw [he] at hp
  cases hp

theorem AuthMiddleware_eq_of (decode : String → Option Token)
    (secret : String) (now : Nat) (req : Request) (tokStr : String)
    (hpub : isPublicPath req.path = false)
    (hpb : parseBearer req.authHeader = some tokStr) :
    AuthMiddleware decode secret now req =
      match verifyTokenString decode tokStr secret now with
      | .error .expired => .reject 401 "Token has expired"
      | .error .malformed => .reject 401 "Malformed token"
      | .error .badSignature => .reject 401 "Invalid token signature"
      | .error (.other d) => .reject 401 ("Invalid token: " ++ d)
      | .ok claims =>
        .proceed (some ⟨claims.userID, claims.email, claims.role⟩) := by
  have hne : req.authHeader ≠ "" := parseBearer_ne_empty hpb
  unfold AuthMiddleware
  rw [if_neg (by simp [hpub]), if_neg hne, hpb]

theorem AuthMiddleware_proceed_some_inv {decode : String → Option Token}
    {secret : String} {now : Nat} {req : Request} {ident : Identity}
    (h : AuthMiddleware decode secret now req = .proceed (some ident)) :
    isPublicPath req.path = false ∧
    ∃ tokStr tok claims,
      parseBearer req.authHeader = some tokStr ∧
      decode tokStr = some tok ∧
      verifyToken tok secret now = Except.ok claims ∧
      ident = ⟨claims.userID, claims.email, claims.role⟩ := by
  unfold AuthMiddleware at h
  by_cases hpub : isPublicPath req.path = true
  · rw [if_pos hpub] at h
    simp at h
  · rw [if_neg hpub] at h
    refine ⟨by simpa using hpub, ?_⟩
    by_cases hemp : req.authHeader = ""
    · rw [if_pos hemp] at h
      cases h
    · rw [if_neg hemp] at h
      cases hpb : parseBearer req.authHeader with
      | none => rw [hpb] at h; cases h
      | some tokStr =>
        rw [hpb] at h
        simp only [verifyTokenString] at h
        cases hdec : decode tokStr with
        | none => rw [hdec] at h; cases h
        | some tok =>
          rw [hdec] at h
          dsimp only at h
          cases hver : verifyToken tok secret now with
          | error e => rw [hver] at h; cases e <;> cases h
          | ok claims =>
            rw [hver] at h
            refine ⟨tokStr, tok, claims, rfl, hdec, hver, ?_⟩
            injection h with h'
            injection h' with h''
            exact h''.symm

theorem verifyToken_nonHmac {tok : Token} (secret : String) (now : Nat)
    (h : isHmacAlg tok.alg = false) :
    verifyToken tok secret now =
      .error (.other ("unexpected signing method: " ++ tok.alg)) := by
  unfold verifyToken
  rw [h]
  simp

theorem overrideServerHost_app (cfg : Config) (env : Env) :
    (overrideServerHost cfg env).application = cfg.application := by
  unfold overrideServerHost
  split <;> rfl

theorem overrideServerPort_app (cfg : Config) (env : Env) :
    (overrideServerPort cfg env).application = cfg.application := by
  unfold overrideServerPort
  split
  · split <;> rfl
  · rfl

theorem overrideDbDriver_app (cfg : Config) (env : Env) :
    (overrideDbDriver cfg env).application = cfg.application := by
  unfold overrideDbDriver
  split <;> rfl

theorem overrideDbHost_app (cfg : Config) (env : Env) :
    (overrideDbHost cfg env).application = cfg.application := by
  unfold overrideDbHost
  split <;> rfl

theorem overrideDbPort_app (cfg : Config) (env : Env) :
    (overrideDbPort cfg env).application = cfg.application := by
  unfold overrideDbPort
  split
  · split <;> rfl
  · rfl

theorem overrideDbUser_app (cfg : Config) (env : Env) :
    (overrideDbUser cfg env).application = cfg.application := by
  unfold overrideDbUser
  split <;> rfl

theorem overrideDbPassword_app (cfg : Config) (env : Env) :
    (overrideDbPassword cfg env).application = cfg.application := by
  unfold overrideDbPassword
  split <;> rfl

theorem overrideDbName_app (cfg : Config) (env : Env) :
    (overrideDbName cfg env).application = cfg.application := by
  unfold overrideDbName
  split <;> rfl

theorem overrideLogLevel_app (cfg : Config) (env : Env) :
    (overrideLogLevel cfg env).application = cfg.application := by
  unfold overrideLogLevel
  split <;> rfl

theorem overrideLogFormat_app (cfg : Config) (env : Env) :
    (overrideLogFormat cfg env).application = cfg.application := by
  unfold overrideLogFormat
  split <;> rfl

/-! ## Claims -/

/-- C1: under the self-or-role(teacher) policy (`CanModifyUser`) with a
successfully parsed target id `t`: a request without an identity in the
context is rejected 401; with an identity present the request is allowed
iff the role is `"teacher"` or the subject id equals `t`, and otherwise it
is rejected 403. -/
theorem canModifyUser_self_or_teacher (s : String) (t : Nat)
    (hp : parseUint32 s = some t) :
    CanModifyUser s none = MWResult.abort 401 "Authentication required" ∧
    ∀ ident : Identity,
      (CanModifyUser s (some ident) = MWResult.next ↔
        (ident.role = "teacher" ∨ ident.userID = t)) ∧
      (¬(ident.role = "teacher" ∨ ident.userID = t) →
        CanModifyUser s (some ident) =
          MWResult.abort 403 "You can only modify your own profile") := by
  refine ⟨by simp [CanModifyUser, hp], fun ident => ⟨?_, ?_⟩⟩
  · by_cases hr : ident.role = "teacher" <;> by_cases hu : ident.userID = t <;>
      simp [CanModifyUser, hp, hr, hu]
  · intro hno
    push_neg at hno
    simp [CanModifyUser, hp, hno.1, hno.2]

/-- Witness for C1 on target id 7: the student with id 7 is allowed, the
student with id 8 gets 403, the teacher with id 8 is allowed. -/
theorem canModifyUser_self_or_teacher_witness :
    CanModifyUser "7" (some ⟨7, "a", "student"⟩) = MWResult.next ∧
    CanModifyUser "7" (some ⟨8, "a", "student"⟩) =
      MWResult.abort 403 "You can only modify your own profile" ∧
    CanModifyUser "7" (some ⟨8, "a", "teacher"⟩) = MWResult.next := by
  have h := canModifyUser_self_or_teacher "7" 7 (by rfl)
  exact ⟨(h.2 ⟨7, "a", "student"⟩).1.mpr (Or.inr rfl),
         (h.2 ⟨8, "a", "student"⟩).2 (by decide),
         (h.2 ⟨8, "a", "teacher"⟩).1.mpr (Or.inl rfl)⟩

/-- C2: the request context carries an identity only if the filter
cryptographically verified the bearer token of this very request: whenever
`AuthMiddleware` proceeds with an identity, the header parsed as
`Bearer <token>`, the token string decoded to a structurally valid token,
`verifyToken` succeeded on it with the configured secret, and the stored
identity is exactly the verified claims' triple; the public-path bypass
proceeds with no identity (and every rejection outcome carries no context
write at all). -/
theorem authMiddleware_identity_only_if_verified :
    (∀ (decode : String → Option Token) (secret : String) (now : Nat)
       (req : Request) (ident : Identity),
       AuthMiddleware decode secret now req = AuthResult.proceed (some ident) →
       isPublicPath req.path = false ∧
       ∃ tokStr tok claims,
         parseBearer req.authHeader = some tokStr ∧
         decode tokStr = some tok ∧
         verifyToken tok secret now = Except.ok claims ∧
         ident = ⟨claims.userID, claims.email, claims.role⟩) ∧
    (∀ (decode : String → Option Token) (secret : String) (now : Nat)
       (req : Request), isPublicPath req.path = true →
       AuthMiddleware decode secret now req = AuthResult.proceed none) :=
  ⟨fun _ _ _ _ _ h => AuthMiddleware_proceed_some_inv h,
   fun _ _ _ _ hp => by unfold AuthMiddleware; rw [if_pos hp]⟩

/-- Witness for C2: on a request carrying `Bearer t` on a protected path,
the filter proceeded with identity (1, "e", "r"), so the token must have
verified to exactly those claims. -/
theorem authMiddleware_identity_only_if_verified_witness :
    isPublicPath wReq.path = false ∧
    ∃ tokStr tok claims,
      parseBearer wReq.authHeader = some tokStr ∧
      wDecode tokStr = some tok ∧
      verifyToken tok "k" 5 = Except.ok claims ∧
      (⟨1, "e", "r"⟩ : Identity) = ⟨claims.userID, claims.email, claims.role⟩ :=
  authMiddleware_identity_only_if_verified.1 wDecode "k" 5 wReq
    ⟨1, "e", "r"⟩ (by rfl)

/-- C3: round-trip — a token produced by `GenerateToken` for an identity,
verified with the same secret at any time strictly before its expires-at
instant, verifies successfully to exactly the issued claims; and the
filter places exactly that user id, email and role into the context. -/
theorem generateToken_verify_roundtrip (uid : Nat) (email role secret : String)
    (now t : Nat) (h : t < now + tokenLifetime) :
    verifyToken (GenerateToken now secret uid email role) secret t =
      Except.ok
        { userID := uid, email := email, role := role,
          expiresAt := now + tokenLifetime, issuedAt := now,
          issuer := "jiaxun" } ∧
    ∀ (decode : String → Option Token) (tokStr : String) (req : Request),
      decode tokStr = some (GenerateToken now secret uid email role) →
      isPublicPath req.path = false →
      parseBearer req.authHeader = some tokStr →
      AuthMiddleware decode secret t req =
        AuthResult.proceed (some ⟨uid, email, role⟩) := by
  have h1 : verifyToken (GenerateToken now secret uid email role) secret t =
      Except.ok
        { userID := uid, email := email, role := role,
          expiresAt := now + tokenLifetime, issuedAt := now,
          issuer := "jiaxun" } := by
    simp [verifyToken, GenerateToken, mkSig, isHmacAlg, hmacAlgs, h]
  refine ⟨h1, ?_⟩
  intro decode tokStr req hdec hpub hpb
  rw [AuthMiddleware_eq_of decode secret t req tokStr hpub hpb]
  simp only [verifyTokenString, hdec, h1]

/-- Witness for C3 at identity (1, "e", "r"), secret `"k"`, issued at 0,
verified at 5. -/
theorem generateToken_verify_roundtrip_witness :
    verifyToken (GenerateToken 0 "k" 1 "e" "r") "k" 5 =
      Except.ok
        { userID := 1, email := "e", role := "r",
          expiresAt := 0 + tokenLifetime, issuedAt := 0,
          issuer := "jiaxun" } ∧
    AuthMiddleware wDecode "k" 5 wReq =
      AuthResult.proceed (some ⟨1, "e", "r"⟩) := by
  have h := generateToken_verify_roundtrip 1 "e" "r" "k" 0 5 (by decide)
  exact ⟨h.1, h.2 wDecode "t" wReq (by rfl) (by rfl) (by rfl)⟩

/-- C4 counterexample: for codec failures outside the Expired / Malformed /
BadSignature categories the body is NOT a fixed string and it DOES embed
the underlying error's message — the filter responds with
`"Invalid token: " + err.Error()`, so the RS256 and ES256 algorithm
rejections produce two different bodies, each embedding the raw codec
detail. -/
theorem authBody_embeds_codec_detail_cex :
    AuthMiddleware decodeRS "k" 0 wReq =
      AuthResult.reject 401
        ("Invalid token: " ++ "unexpected signing method: RS256") ∧
    AuthMiddleware decodeES "k" 0 wReq =
      AuthResult.reject 401
        ("Invalid token: " ++ "unexpected signing method: ES256") ∧
    ("Invalid token: " ++ "unexpected signing method: RS256" : String) ≠
      "Invalid token: " ++ "unexpected signing method: ES256" :=
  ⟨rfl, rfl, by decide⟩

/-- C4 (amended): every rejection of the authentication filter is a 401
whose body is one of five fixed coarse strings — except that a codec
failure outside the Expired / Malformed / BadSignature categories yields
the body `"Invalid token: "` concatenated with the underlying error's
detail, so internal detail is embedded in exactly that case. -/
theorem authMiddleware_reject_bodies (decode : String → Option Token)
    (secret : String) (now : Nat) (req : Request) (status : Nat)
    (body : String)
    (h : AuthMiddleware decode secret now req = AuthResult.reject status body) :
    status = 401 ∧
    (body = "Authorization header is required" ∨
     body = "Authorization header format must be Bearer {token}" ∨
     body = "Token has expired" ∨
     body = "Malformed token" ∨
     body = "Invalid token signature" ∨
     ∃ d tokStr tok,
       parseBearer req.authHeader = some tokStr ∧
       decode tokStr = some tok ∧
       verifyToken tok secret now = Except.error (VerifyError.other d) ∧
       body = "Invalid token: " ++ d) := by
  unfold AuthMiddleware at h
  by_cases hpub : isPublicPath req.path = true
  · rw [if_pos hpub] at h
    cases h
  · rw [if_neg hpub] at h
    by_cases hemp : req.authHeader = ""
    · rw [if_pos hemp] at h
      injection h with h1 h2
      exact ⟨h1.symm, Or.inl h2.symm⟩
    · rw [if_neg hemp] at h
      cases hpb : parseBearer req.authHeader with
      | none =>
        rw [hpb] at h
        injection h with h1 h2
        exact ⟨h1.symm, Or.inr (Or.inl h2.symm)⟩
      | some tokStr =>
        rw [hpb] at h
        simp only [verifyTokenString] at h
        cases hdec : decode tokStr with
        | none =>
          rw [hdec] at h
          dsimp only at h
          injection h with h1 h2
          exact ⟨h1.symm, Or.inr (Or.inr (Or.inr (Or.inl h2.symm)))⟩
        | some tok =>
          rw [hdec] at h
          dsimp only at h
          cases hver : verifyToken tok secret now with
          | ok claims => rw [hver] at h; cases h
          | error e =>
            rw [hver] at h
            cases e with
            | expired =>
              injection h with h1 h2
              exact ⟨h1.symm, Or.inr (Or.inr (Or.inl h2.symm))⟩
            | malformed =>
              injection h with h1 h2
              exact ⟨h1.symm, Or.inr (Or.inr (Or.inr (Or.inl h2.symm)))⟩
            | badSignature =>
              injection h with h1 h2
              exact ⟨h1.symm,
                Or.inr (Or.inr (Or.inr (Or.inr (Or.inl h2.symm))))⟩
            | other d =>
              injection h with h1 h2
              exact ⟨h1.symm,
                Or.inr (Or.inr (Or.inr (Or.inr (Or.inr
                  ⟨d, tokStr, tok, rfl, hdec, hver, h2.symm⟩))))⟩

/-- Witness for the amended C4 at the RS256 rejection. -/
theorem authMiddleware_reject_bodies_witness :
    (401 : Nat) = 401 ∧
    (("Invalid token: " ++ "unexpected signing method: RS256" : String) =
        "Authorization header is required" ∨
     ("Invalid token: " ++ "unexpected signing method: RS256" : String) =
        "Authorization header format must be Bearer {token}" ∨
     ("Invalid token: " ++ "unexpected signing method: RS256" : String) =
        "Token has expired" ∨
     ("Invalid token: " ++ "unexpected signing method: RS256" : String) =
        "Malformed token" ∨
     ("Invalid token: " ++ "unexpected signing method: RS256" : String) =
        "Invalid token signature" ∨
     ∃ d tokStr tok,
       parseBearer wReq.authHeader = some tokStr ∧
       decodeRS tokStr = some tok ∧
       verifyToken tok "k" 0 = Except.error (VerifyError.other d) ∧
       ("Invalid token: " ++ "unexpected signing method: RS256" : String) =
         "Invalid token: " ++ d) :=
  authMiddleware_reject_bodies decodeRS "k" 0 wReq 401
    ("Invalid token: " ++ "unexpected signing method: RS256") (by rfl)

/-- C5: a token whose header declares an algorithm outside the HMAC family
is rejected by verification regardless of its signature or claims, and the
filter never proceeds with an identity for such a token. -/
theorem verifyToken_rejects_nonHmac_alg (tok : Token) (secret : String)
    (now : Nat) (h : isHmacAlg tok.alg = false) :
    verifyToken tok secret now =
      Except.error
        (VerifyError.other ("unexpected signing method: " ++ tok.alg)) ∧
    ∀ (req : Request) (ident : Identity),
      AuthMiddleware (fun _ => some tok) secret now req ≠
        AuthResult.proceed (some ident) := by
  refine ⟨verifyToken_nonHmac secret now h, ?_⟩
  intro req ident hcontra
  obtain ⟨-, tokStr, tok', claims, -, hdec, hver, -⟩ :=
    AuthMiddleware_proceed_some_inv hcontra
  simp only [Option.some.injEq] at hdec
  rw [← hdec] at hver
  rw [verifyToken_nonHmac secret now h] at hver
  cases hver

/-- Witness for C5 at the RS256 token. -/
theorem verifyToken_rejects_nonHmac_alg_witness :
    verifyToken tokRS "k" 0 =
      Except.error
        (VerifyError.other ("unexpected signing method: " ++ tokRS.alg)) ∧
    AuthMiddleware (fun _ => some tokRS) "k" 0 wReq ≠
      AuthResult.proceed (some ⟨1, "e", "r"⟩) := by
  have h := verifyToken_rejects_nonHmac_alg tokRS "k" 0 (by rfl)
  exact ⟨h.1, h.2 wReq ⟨1, "e", "r"⟩⟩

/-- C6: verifying an HMAC token with any secret key different from the one
it was signed with fails with the BadSignature category and never
succeeds; the filter maps it to a 401 with the signature-failure body. -/
theorem verifyToken_wrong_key_badSignature (tok : Token) (key2 : String)
    (now : Nat) (h1 : isHmacAlg tok.alg = true) (h2 : tok.sig.key ≠ key2) :
    verifyToken tok key2 now = Except.error VerifyError.badSignature ∧
    ∀ (req : Request) (tokStr : String),
      isPublicPath req.path = false →
      parseBearer req.authHeader = some tokStr →
      AuthMiddleware (fun _ => some tok) key2 now req =
        AuthResult.reject 401 "Invalid token signature" := by
  have hv : verifyToken tok key2 now = Except.error VerifyError.badSignature := by
    have hne : tok.sig ≠ mkSig key2 tok.alg tok.claims := by
      intro he
      apply h2
      rw [he]
      rfl
    unfold verifyToken
    rw [h1]
    simp [hne]
  refine ⟨hv, ?_⟩
  intro req tokStr hpub hpb
  rw [AuthMiddleware_eq_of _ key2 now req tokStr hpub hpb]
  simp only [verifyTokenString, hv]

/-- Witness for C6: the token issued with `"k1"` verified with `"k2"`. -/
theorem verifyToken_wrong_key_badSignature_witness :
    verifyToken wTok1 "k2" 0 = Except.error VerifyError.badSignature ∧
    AuthMiddleware (fun _ => some wTok1) "k2" 0 wReq =
      AuthResult.reject 401 "Invalid token signature" := by
  have h := verifyToken_wrong_key_badSignature wTok1 "k2" 0 (by rfl) (by decide)
  exact ⟨h.1, h.2 wReq "t" (by rfl) (by rfl)⟩

/-- C7: a request whose path starts with one of the public path stems
passes through the filter with no identity set — never a 401 — even with
no `Authorization` header. -/
theorem publicPath_bypass (decode : String → Option Token) (secret : String)
    (now : Nat) (req : Request) (h : isPublicPath req.path = true) :
    AuthMiddleware decode secret now req = AuthResult.proceed none ∧
    ∀ (status : Nat) (msg : String),
      AuthMiddleware decode secret now req ≠ AuthResult.reject status msg := by
  have he : AuthMiddleware decode secret now req = AuthResult.proceed none := by
    unfold AuthMiddleware
    rw [if_pos h]
  exact ⟨he, fun status msg hc => by rw [he] at hc; cases hc⟩

/-- Witness for C7 at `/api/auth/login` with no `Authorization` header. -/
theorem publicPath_bypass_witness :
    AuthMiddleware (fun _ => none) "k" 0 ⟨"/api/auth/login", ""⟩ =
      AuthResult.proceed none :=
  (publicPath_bypass (fun _ => none) "k" 0 ⟨"/api/auth/login", ""⟩ (by rfl)).1

/-- C8: an unparsable `:id` route parameter under the self-or-role policy
is answered 400 BadRequest before any authentication or authorization
check — for every context, including the absent-identity one, and the
outcome is never a 401 or 403. -/
theorem canModifyUser_unparsable_id_400 (s : String) (ctx : Option Identity)
    (h : parseUint32 s = none) :
    CanModifyUser s ctx = MWResult.abort 400 "Invalid user ID" := by
  simp [CanModifyUser, h]

/-- Witness for C8 at `id=abc` with no identity present. -/
theorem canModifyUser_unparsable_id_400_witness :
    parseUint32 "abc" = none ∧
    CanModifyUser "abc" none = MWResult.abort 400 "Invalid user ID" :=
  ⟨rfl, canModifyUser_unparsable_id_400 "abc" none rfl⟩

/-- C9 counterexample: in an environment that supplies the value
`"supplied"` under every variable name, the environment-override step
still leaves the signing secret at the built-in default `"mysecret"` —
`overrideFromEnv` has no branch for `Application.Secret`. -/
theorem overrideFromEnv_ignores_secret_cex :
    (overrideFromEnv defaultConfig (fun _ => "supplied")).application.secret
      = "mysecret" ∧
    ("mysecret" : String) ≠ "supplied" :=
  ⟨rfl, by decide⟩

/-- C9 (amended): the configuration loader's environment-override step
never changes the signing secret — for every configuration and every
environment the application section (hence the secret) is left exactly as
it was; starting from the built-in defaults the signing key is the
hardcoded literal `"mysecret"`, which is nonempty but is not
environment-sourced. -/
theorem overrideFromEnv_secret_unchanged :
    (∀ (cfg : Config) (env : Env),
      (overrideFromEnv cfg env).application = cfg.application) ∧
    defaultConfig.application.secret = "mysecret" ∧
    ("mysecret" : String) ≠ "" := by
  refine ⟨?_, rfl, by decide⟩
  intro cfg env
  simp only [overrideFromEnv, overrideLogFormat_app, overrideLogLevel_app,
    overrideDbName_app, overrideDbPassword_app, overrideDbUser_app,
    overrideDbPort_app, overrideDbHost_app, overrideDbDriver_app,
    overrideServerPort_app, overrideServerHost_app]

/-- C10: only the exact role string `"teacher"` grants role-based access:
any identity with a different role — in particular `"admin"`, the role of
the bootstrap root user created by `InitDB` — gets 403 from the
teacher-role gate, and passes the self-or-role gate only when its subject
id equals the target id. -/
theorem teacher_role_exact_gate :
    (∀ (hp : String) (n : Nat), (mkRootUser hp n).role = "admin") ∧
    ("admin" : String) ≠ "teacher" ∧
    ∀ ident : Identity, ident.role ≠ "teacher" →
      TeacherRequired (some ident) =
        MWResult.abort 403 "Teacher privileges required" ∧
      ∀ (s : String) (t : Nat), parseUint32 s = some t →
        (CanModifyUser s (some ident) = MWResult.next ↔ ident.userID = t) := by
  refine ⟨fun _ _ => rfl, by decide, ?_⟩
  intro ident hr
  constructor
  · simp [TeacherRequired, hr]
  · intro s t hp
    by_cases hu : ident.userID = t <;> simp [CanModifyUser, hp, hr, hu]

/-- Witness for C10 at identities carrying the root user's role. -/
theorem teacher_role_exact_gate_witness :
    TeacherRequired (some ⟨1, "root@example.com", "admin"⟩) =
      MWResult.abort 403 "Teacher privileges required" ∧
    (CanModifyUser "7" (some ⟨7, "b", "admin"⟩) = MWResult.next ↔
      (7 : Nat) = 7) := by
  have h1 := teacher_role_exact_gate.2.2 ⟨1, "root@example.com", "admin"⟩
    (by decide)
  have h2 := teacher_role_exact_gate.2.2 ⟨7, "b", "admin"⟩ (by decide)
  exact ⟨h1.1, h2.2 "7" 7 rfl⟩

end Jiaxun
